import Mathlib

/-!
Verification development for the AEMET procurement-document chatbot
(src/interfaz_chatbot_aemet.py).

The script is a retrieval-augmented question answering pipeline: a user query
is linguistically expanded by a generative model, embedded, used to query a
vector index, the matches are filtered by a similarity threshold, synthesized
into a context, and a final grounded answer is generated.  External services
(the generative model, the embedding endpoint, the vector index) are modelled
as oracles: per-attempt outcome functions for the two model calls, and a
single outcome value for the index query.  The retry wrappers are modelled as
fuel-bounded recursion returning both the result and the number of calls made
to the underlying service.  Python exceptions raised by a service appear as
explicit failure outcomes; the outer try/except of the pipeline is modelled by
an optional catastrophic-failure field of the environment, which forces the
error answer and an empty fragment list exactly as the handler does.
Similarity scores are modelled as rationals.
-/

namespace ChatbotAemet

/-- Configuración, line 11 of the source: umbral mínimo de similitud, the
value 0.50 written as a normalised rational. -/
def MIN_SIMILARITY_SCORE : ℚ := mkRat 50 100

/-- Configuración, line 12 of the source: número de fragmentos a recuperar. -/
def TOP_K : Nat := 5

/-- Outcome of one attempt of the underlying generative call
(model.generate_content): a structurally valid response whose first text part
is the given string, a structurally malformed response (no candidates or no
parts), or a raised exception with its message. -/
inductive GenOutcome
  | ok (text : String)
  | malformed
  | err (msg : String)
  deriving DecidableEq

/-- Outcome of one attempt of the underlying embedding call
(genai.embed_content): a response carrying an embedding vector, a response
missing the embedding field, or a raised exception with its message. -/
inductive EmbedOutcome
  | ok (vector : List ℚ)
  | malformed
  | err (msg : String)
  deriving DecidableEq

/-- Model of Python str.strip as used at line 84: leading and trailing
whitespace removed. -/
def pyStrip (s : String) : String :=
  String.mk
    (((s.data.dropWhile Char.isWhitespace).reverse.dropWhile
        Char.isWhitespace).reverse)

/-- Fallback string returned by safe_generate_content when every attempt
fails (line 91 of the source). -/
def genFallback : String :=
  "No se pudo generar una respuesta. Por favor, intenta reformular tu consulta."

/-- Retry loop of safe_generate_content (lines 79-89): first argument of the
pair of naturals is the index of the current attempt, second is the remaining
fuel (attempts left).  Returns the produced string together with the number of
calls made to the underlying service.  A structurally valid response returns
its first text part stripped (pyStrip models Python str.strip); a
malformed response or an exception consumes the attempt and retries. -/
def safeGenLoop (g : Nat → GenOutcome) : Nat → Nat → String × Nat
  | _, 0 => (genFallback, 0)
  | a, fuel + 1 =>
    match g a with
    | GenOutcome.ok t => (pyStrip t, 1)
    | GenOutcome.malformed =>
        ((safeGenLoop g (a + 1) fuel).1, (safeGenLoop g (a + 1) fuel).2 + 1)
    | GenOutcome.err _ =>
        ((safeGenLoop g (a + 1) fuel).1, (safeGenLoop g (a + 1) fuel).2 + 1)

/-- safe_generate_content (lines 77-91).  The oracle takes the prompt and the
attempt index; max_retries is passed explicitly (the source defaults it to 3
and every call site uses the default). -/
def safe_generate_content (g : String → Nat → GenOutcome) (prompt : String)
    (max_retries : Nat) : String × Nat :=
  safeGenLoop (g prompt) 0 max_retries

/-- Retry loop of safe_embed_content (lines 95-103), analogous to
safeGenLoop; exhaustion returns the null sentinel None (line 104). -/
def safeEmbedLoop (g : Nat → EmbedOutcome) : Nat → Nat → Option (List ℚ) × Nat
  | _, 0 => (none, 0)
  | a, fuel + 1 =>
    match g a with
    | EmbedOutcome.ok v => (some v, 1)
    | EmbedOutcome.malformed =>
        ((safeEmbedLoop g (a + 1) fuel).1, (safeEmbedLoop g (a + 1) fuel).2 + 1)
    | EmbedOutcome.err _ =>
        ((safeEmbedLoop g (a + 1) fuel).1, (safeEmbedLoop g (a + 1) fuel).2 + 1)

/-- safe_embed_content (lines 93-104). -/
def safe_embed_content (g : String → Nat → EmbedOutcome) (content : String)
    (max_retries : Nat) : Option (List ℚ) × Nat :=
  safeEmbedLoop (g content) 0 max_retries

/-- Metadata mapping of an index match; the source reads the keys texto and
documento with meta.get, so each field may be absent. -/
structure MatchMetadata where
  texto : Option String
  documento : Option String
  deriving DecidableEq

/-- One match returned by index.query (line 140): m.get can find the score
and the metadata mapping absent. -/
structure IndexMatch where
  score : Option ℚ
  metadata : Option MatchMetadata
  deriving DecidableEq

/-- A retained fragment, the dict appended at line 145 of the source. -/
structure Fragment where
  texto : String
  documento : String
  score : ℚ
  deriving DecidableEq

/-- Score of a match: m.get with default 0 (line 142). -/
def matchScore (m : IndexMatch) : ℚ := (m.score.getD 0)

/-- Fragment built from a match at line 144-145: metadata defaults to the
empty mapping, and each missing field defaults to the empty string. -/
def fragmentOfMatch (m : IndexMatch) : Fragment :=
  { texto := ((m.metadata.getD { texto := none, documento := none }).texto.getD "")
    documento := ((m.metadata.getD { texto := none, documento := none }).documento.getD "")
    score := matchScore m }

/-- Retrieval loop at lines 141-145: keep a match only when its score reaches
MIN_SIMILARITY_SCORE, in the order the index returned the matches. -/
def retrieveFragments : List IndexMatch → List Fragment
  | [] => []
  | m :: ms =>
    if MIN_SIMILARITY_SCORE ≤ matchScore m then
      fragmentOfMatch m :: retrieveFragments ms
    else
      retrieveFragments ms

/-- Outcome of the vector-index query inside the inner try of lines 139-147:
either the list of matches or a raised exception (caught at line 146, which
leaves the retrieved list empty). -/
def retrieveIndex : Except String (List IndexMatch) → List Fragment
  | Except.ok ms => retrieveFragments ms
  | Except.error _ => []

/-- Python truthiness of the query vector as tested at line 138: None and the
empty list are falsy, a nonempty list is truthy. -/
def pyTruthy : Option (List ℚ) → Bool
  | none => false
  | some v => !v.isEmpty

/-- Role of a conversation turn, the role strings Usuario and Asistente of
lines 122 and 176. -/
inductive Role
  | Usuario
  | Asistente
  deriving DecidableEq

/-- One entry of st.session_state.conversation: the user dict of line 122 has
no fragments key (modelled none), the assistant dict of line 176 carries its
fragment list. -/
structure Turn where
  role : Role
  content : String
  fragments : Option (List Fragment)
  deriving DecidableEq

/-- Role rendered as in the history string of line 75. -/
def roleStr : Role → String
  | Role.Usuario => "Usuario"
  | Role.Asistente => "Asistente"

/-- format_history (lines 74-75). -/
def format_history (conversation : List Turn) : String :=
  String.intercalate "\n"
    (conversation.map (fun msg => roleStr msg.role ++ ": " ++ msg.content))

/-- CUSTOM_PROMPT (lines 39-54), the triple-quoted literal with its leading
and trailing newline. -/
def CUSTOM_PROMPT : String :=
  "\nEres un asistente especializado en resolver dudas sobre el pliego de condiciones del proyecto de Crowdsourcing para la recogida, tratamiento y difusión del impacto meteorológico de la Agencia Estatal de Meteorología (AEMET).\nTu objetivo es proporcionar respuestas precisas y claras basadas únicamente en el contenido del pliego.\n\nRecibirás:\n1. El historial de la conversación actual\n2. La última consulta del usuario\n3. Fragmentos relevantes extraídos del pliego\n\nInstrucciones:\n- Utiliza el historial para entender el contexto\n- Responde con rigurosidad técnica, referenciando secciones y apartados del pliego\n- Si la información no se encuentra en los fragmentos, indícalo claramente\n- Sé conciso y estructurado en tus respuestas\n- Cita textualmente partes del pliego cuando sea posible\n"

/-- Query-expansion prompt built at line 129. -/
def expand_prompt (user_input : String) : String :=
  "Expande lingüísticamente esta consulta sobre el pliego de AEMET para mejorar su vectorización: \"" ++
    user_input ++
    "\". Tu respuesta deber únicamente la consulta expandida, nada más. Ten en cuenta que tu respuesta se vectorizará directamente para un RAG, por lo que responde únicamente con lo necesario."

/-- Context block built at line 152: fragments tagged with their document
label, joined by the delimiter. -/
def ctxBlock (retrieved : List Fragment) : String :=
  String.intercalate "\n---\n"
    (retrieved.map (fun f => "[" ++ f.documento ++ "]: " ++ f.texto))

/-- Synthesis prompt built at line 153. -/
def synth_prompt (retrieved : List Fragment) (user_input : String) : String :=
  "Dado estos fragmentos del pliego:\n" ++ ctxBlock retrieved ++
    "\n\nSintetiza y organiza la información en un contexto claro para el asistente. Ten en cuenta que tu respuesta servirá como fuente de datos a un LLM para responder a la siguiente consulta: " ++
    user_input

/-- Fixed literal used as synthesized context when nothing was retrieved
(line 157). -/
def noFragmentsLiteral : String :=
  "No se encontraron fragmentos relevantes en el pliego para esta consulta."

/-- Final prompt built at lines 162-166. -/
def final_prompt (formatted synthesized_context user_input : String) : String :=
  CUSTOM_PROMPT ++ "\n\nHistorial de conversación:\n" ++ formatted ++
    "\n\nContexto sintetizado:\n" ++ synthesized_context ++
    "\n\nConsulta actual: " ++ user_input

/-- Apology substituted at line 169 when the generated answer is falsy. -/
def emptyAnswerFallback : String :=
  "Lo siento, no pude generar una respuesta. Por favor, intenta reformular tu consulta."

/-- Error answer produced by the outer exception handler at line 172. -/
def pipelineError (e : String) : String :=
  "Se produjo un error al procesar tu consulta: " ++ e ++
    ". Por favor, inténtalo de nuevo."

/-- Behaviour of the external world during one user turn: the generative
oracle (by prompt and attempt index), the embedding oracle (by content and
attempt index), the index-query outcome, and an optional unexpected exception
escaping the five stages (the event caught by the outer handler of
lines 171-173). -/
structure TurnEnv where
  gen : String → Nat → GenOutcome
  emb : String → Nat → EmbedOutcome
  indexResult : Except String (List IndexMatch)
  catastrophic : Option String

/-- Observable result of processing one user turn: the answer and fragment
list stored in the assistant turn, the intermediate values, whether the guard
of line 138 let the index be queried, and how many calls each wrapper
invocation made to its underlying service. -/
structure TurnResult where
  answer : String
  fragments : List Fragment
  synthesized_context : String
  expanded_query : String
  embedInput : String
  query_vector : Option (List ℚ)
  indexQueried : Bool
  expandCalls : Nat
  embedCalls : Nat
  synthCalls : Nat
  answerCalls : Nat

/-- The five pipeline stages of lines 128-169: expansion, embedding of the
expanded query, guarded retrieval with threshold filtering, synthesis (or the
fixed literal when nothing was retrieved, with no model call), and final
answer generation over the history excluding the just-added user turn (the
conv argument), with the apology substituted for an empty answer. -/
def processTurnStages (env : TurnEnv) (conv : List Turn) (user_input : String) :
    TurnResult :=
  let eres := safe_generate_content env.gen (expand_prompt user_input) 3
  let vres := safe_embed_content env.emb eres.1 3
  let retrieved := if pyTruthy vres.1 then retrieveIndex env.indexResult else []
  let sres :=
    if retrieved.isEmpty then (noFragmentsLiteral, 0)
    else safe_generate_content env.gen (synth_prompt retrieved user_input) 3
  let ares :=
    safe_generate_content env.gen
      (final_prompt (format_history conv) sres.1 user_input) 3
  { answer := if ares.1 = "" then emptyAnswerFallback else ares.1
    fragments := retrieved
    synthesized_context := sres.1
    expanded_query := eres.1
    embedInput := eres.1
    query_vector := vres.1
    indexQueried := pyTruthy vres.1
    expandCalls := eres.2
    embedCalls := vres.2
    synthCalls := sres.2
    answerCalls := ares.2 }

/-- Processing of one user turn including the outer try/except of
lines 127-173: an unexpected exception yields the error answer and forces the
fragment list empty, exactly as the handler does. -/
def processTurn (env : TurnEnv) (conv : List Turn) (user_input : String) :
    TurnResult :=
  match env.catastrophic with
  | none => processTurnStages env conv user_input
  | some e =>
      { processTurnStages env conv user_input with
          answer := pipelineError e, fragments := [] }

/-- One full user turn at the conversation level: the user turn is appended
first (line 122), the pipeline runs with the history excluding it (line 160),
and the assistant turn carrying the answer and fragments is appended
(line 176). -/
def stepConversation (env : TurnEnv) (user_input : String) (conv : List Turn) :
    List Turn :=
  conv ++
    [{ role := Role.Usuario, content := user_input, fragments := none },
     { role := Role.Asistente,
       content := (processTurn env conv user_input).answer,
       fragments := some (processTurn env conv user_input).fragments }]

/-- Session run from a given conversation state over a list of user turns,
each with its environment. -/
def runAux (conv : List Turn) : List (TurnEnv × String) → List Turn
  | [] => conv
  | s :: rest => runAux (stepConversation s.1 s.2 conv) rest

/-- Full session from the empty conversation of line 58. -/
def runSession (steps : List (TurnEnv × String)) : List Turn :=
  runAux [] steps

/-- Boolean check that a conversation is a sequence of (Usuario, Asistente)
pairs in that order. -/
def alternatingUA : List Turn → Bool
  | [] => true
  | [_] => false
  | x :: y :: rest =>
      (x.role == Role.Usuario) && (y.role == Role.Asistente) && alternatingUA rest

/-- The retry loop never calls the service more often than its fuel allows. -/
theorem safeGenLoop_calls_le (g : Nat → GenOutcome) :
    ∀ fuel a, (safeGenLoop g a fuel).2 ≤ fuel
  | 0, _ => Nat.le_refl 0
  | fuel + 1, a => by
    simp only [safeGenLoop]
    cases hg : g a with
    | ok t => exact Nat.succ_le_succ (Nat.zero_le fuel)
    | malformed => exact Nat.succ_le_succ (safeGenLoop_calls_le g fuel (a + 1))
    | err m => exact Nat.succ_le_succ (safeGenLoop_calls_le g fuel (a + 1))

/-- When every attempt fails, the loop returns the fixed fallback string. -/
theorem safeGenLoop_all_fail (g : Nat → GenOutcome)
    (hg : ∀ i t, g i ≠ GenOutcome.ok t) :
    ∀ fuel a, (safeGenLoop g a fuel).1 = genFallback
  | 0, _ => rfl
  | fuel + 1, a => by
    simp only [safeGenLoop]
    cases hga : g a with
    | ok t => exact absurd hga (hg a t)
    | malformed => exact safeGenLoop_all_fail g hg fuel (a + 1)
    | err m => exact safeGenLoop_all_fail g hg fuel (a + 1)

/-- The embedding retry loop never calls the service more often than its fuel
allows. -/
theorem safeEmbedLoop_calls_le (g : Nat → EmbedOutcome) :
    ∀ fuel a, (safeEmbedLoop g a fuel).2 ≤ fuel
  | 0, _ => Nat.le_refl 0
  | fuel + 1, a => by
    simp only [safeEmbedLoop]
    cases hg : g a with
    | ok v => exact Nat.succ_le_succ (Nat.zero_le fuel)
    | malformed => exact Nat.succ_le_succ (safeEmbedLoop_calls_le g fuel (a + 1))
    | err m => exact Nat.succ_le_succ (safeEmbedLoop_calls_le g fuel (a + 1))

/-- When every embedding attempt fails, the loop returns the null sentinel. -/
theorem safeEmbedLoop_all_fail (g : Nat → EmbedOutcome)
    (hg : ∀ i v, g i ≠ EmbedOutcome.ok v) :
    ∀ fuel a, (safeEmbedLoop g a fuel).1 = none
  | 0, _ => rfl
  | fuel + 1, a => by
    simp only [safeEmbedLoop]
    cases hga : g a with
    | ok v => exact absurd hga (hg a v)
    | malformed => exact safeEmbedLoop_all_fail g hg fuel (a + 1)
    | err m => exact safeEmbedLoop_all_fail g hg fuel (a + 1)

/-- With at least one unit of fuel, the embedding loop makes at least one
call to the service. -/
theorem safeEmbedLoop_calls_pos (g : Nat → EmbedOutcome) (fuel a : Nat) :
    1 ≤ (safeEmbedLoop g a (fuel + 1)).2 := by
  simp only [safeEmbedLoop]
  cases hg : g a with
  | ok v => exact Nat.le_refl 1
  | malformed => exact Nat.succ_le_succ (Nat.zero_le _)
  | err m => exact Nat.succ_le_succ (Nat.zero_le _)

/-- Every fragment the retrieval loop retains satisfies the threshold. -/
theorem mem_retrieveFragments (f : Fragment) (ms : List IndexMatch)
    (h : f ∈ retrieveFragments ms) : MIN_SIMILARITY_SCORE ≤ f.score := by
  induction ms with
  | nil => exact absurd h (List.not_mem_nil f)
  | cons m ms ih =>
    simp only [retrieveFragments] at h
    by_cases hs : MIN_SIMILARITY_SCORE ≤ matchScore m
    · rw [if_pos hs] at h
      rcases List.mem_cons.mp h with h1 | h2
      · subst h1; exact hs
      · exact ih h2
    · rw [if_neg hs] at h
      exact ih h

/-- The retrieval loop is exactly a threshold filter followed by fragment
construction, so the index ordering of retained matches is preserved. -/
theorem retrieveFragments_eq_filter_map (ms : List IndexMatch) :
    retrieveFragments ms =
      (ms.filter (fun m => decide (MIN_SIMILARITY_SCORE ≤ matchScore m))).map
        fragmentOfMatch := by
  induction ms with
  | nil => rfl
  | cons m ms ih =>
    simp only [retrieveFragments, List.filter_cons]
    by_cases hs : MIN_SIMILARITY_SCORE ≤ matchScore m
    · simp [hs, ih]
    · simp [hs, ih]

/-- Every fragment produced from an index outcome satisfies the threshold. -/
theorem mem_retrieveIndex (f : Fragment) (r : Except String (List IndexMatch))
    (h : f ∈ retrieveIndex r) : MIN_SIMILARITY_SCORE ≤ f.score := by
  cases r with
  | ok ms => exact mem_retrieveFragments f ms h
  | error e => exact absurd h (List.not_mem_nil f)

/-- The fragment list of a processed turn is the guarded retrieval result. -/
theorem processTurnStages_fragments (env : TurnEnv) (conv : List Turn)
    (input : String) :
    (processTurnStages env conv input).fragments =
      (if pyTruthy (safe_embed_content env.emb
            (safe_generate_content env.gen (expand_prompt input) 3).1 3).1
       then retrieveIndex env.indexResult else []) := rfl

/-- Every fragment stored by a processed turn satisfies the threshold,
whichever way the external calls behave. -/
theorem processTurn_fragments_ok (env : TurnEnv) (conv : List Turn)
    (input : String) (f : Fragment)
    (hf : f ∈ (processTurn env conv input).fragments) :
    MIN_SIMILARITY_SCORE ≤ f.score := by
  cases hc : env.catastrophic with
  | none =>
    simp only [processTurn, hc] at hf
    rw [processTurnStages_fragments] at hf
    split at hf
    · exact mem_retrieveIndex f env.indexResult hf
    · exact absurd hf (List.not_mem_nil f)
  | some e =>
    simp only [processTurn, hc] at hf
    exact absurd hf (List.not_mem_nil f)

/-- Conversation invariant: every stored fragment list only holds fragments
meeting the threshold. -/
def fragmentsOk (conv : List Turn) : Prop :=
  ∀ t ∈ conv, ∀ l, t.fragments = some l →
    ∀ f ∈ l, MIN_SIMILARITY_SCORE ≤ f.score

/-- Processing one user turn preserves the fragment invariant. -/
theorem stepConversation_fragmentsOk (env : TurnEnv) (input : String)
    (conv : List Turn) (hc : fragmentsOk conv) :
    fragmentsOk (stepConversation env input conv) := by
  intro t ht l hl f hf
  rw [stepConversation] at ht
  rcases List.mem_append.mp ht with h1 | h2
  · exact hc t h1 l hl f hf
  · rcases List.mem_cons.mp h2 with h3 | h4
    · subst h3; exact Option.noConfusion hl
    · rcases List.mem_cons.mp h4 with h5 | h6
      · subst h5
        have he : (processTurn env conv input).fragments = l := Option.some.inj hl
        subst he
        exact processTurn_fragments_ok env conv input f hf
      · exact absurd h6 (List.not_mem_nil t)

/-- A whole session run preserves the fragment invariant. -/
theorem runAux_fragmentsOk (steps : List (TurnEnv × String)) :
    ∀ conv, fragmentsOk conv → fragmentsOk (runAux conv steps) := by
  induction steps with
  | nil => intro conv h; exact h
  | cons s rest ih =>
    intro conv h
    exact ih _ (stepConversation_fragmentsOk s.1 s.2 conv h)

/-- Running a concatenation of step lists runs them in sequence. -/
theorem runAux_append (s₁ s₂ : List (TurnEnv × String)) :
    ∀ conv, runAux conv (s₁ ++ s₂) = runAux (runAux conv s₁) s₂ := by
  induction s₁ with
  | nil => intro conv; rfl
  | cons s rest ih =>
    intro conv
    simp only [List.cons_append, runAux]
    exact ih _

/-- A session run only appends: the starting conversation is left intact at
the front of the result. -/
theorem runAux_extends (steps : List (TurnEnv × String)) :
    ∀ conv, ∃ tail, runAux conv steps = conv ++ tail := by
  induction steps with
  | nil => intro conv; exact ⟨[], (List.append_nil conv).symm⟩
  | cons s rest ih =>
    intro conv
    obtain ⟨t, ht⟩ := ih (stepConversation s.1 s.2 conv)
    rw [runAux, ht, stepConversation, List.append_assoc]
    exact ⟨_, rfl⟩

/-- Each processed user turn adds exactly two turns. -/
theorem runAux_length (steps : List (TurnEnv × String)) :
    ∀ conv, (runAux conv steps).length = conv.length + 2 * steps.length := by
  induction steps with
  | nil => intro conv; simp [runAux]
  | cons s rest ih =>
    intro conv
    rw [runAux, ih, stepConversation]
    simp only [List.length_append, List.length_cons, List.length_nil]
    omega

/-- Appending a (user, assistant) pair preserves strict alternation. -/
theorem alternatingUA_append_pair (u a : Turn) (hu : u.role = Role.Usuario)
    (ha : a.role = Role.Asistente) :
    ∀ l, alternatingUA l = true → alternatingUA (l ++ [u, a]) = true
  | [], _ => by simp [alternatingUA, hu, ha]
  | [x], h => by simp [alternatingUA] at h
  | x :: y :: rest, h => by
    simp only [alternatingUA, Bool.and_eq_true] at h
    obtain ⟨⟨h1, h2⟩, h3⟩ := h
    have ih := alternatingUA_append_pair u a hu ha rest h3
    simp only [List.cons_append, alternatingUA, Bool.and_eq_true]
    exact ⟨⟨h1, h2⟩, ih⟩

/-- A whole session run preserves strict alternation. -/
theorem runAux_alternating (steps : List (TurnEnv × String)) :
    ∀ conv, alternatingUA conv = true →
      alternatingUA (runAux conv steps) = true := by
  induction steps with
  | nil => intro conv h; exact h
  | cons s rest ih =>
    intro conv h
    refine ih _ ?_
    rw [stepConversation]
    exact alternatingUA_append_pair _ _ rfl rfl conv h

/-- The embed input of a processed turn is the expansion result. -/
theorem processTurnStages_embedInput (env : TurnEnv) (conv : List Turn)
    (input : String) :
    (processTurnStages env conv input).embedInput =
      (safe_generate_content env.gen (expand_prompt input) 3).1 := rfl

/-- The embedding call count of a processed turn. -/
theorem processTurnStages_embedCalls (env : TurnEnv) (conv : List Turn)
    (input : String) :
    (processTurnStages env conv input).embedCalls =
      (safe_embed_content env.emb
        (safe_generate_content env.gen (expand_prompt input) 3).1 3).2 := rfl

/-- Whether the index was queried is the truthiness of the query vector. -/
theorem processTurnStages_indexQueried (env : TurnEnv) (conv : List Turn)
    (input : String) :
    (processTurnStages env conv input).indexQueried =
      pyTruthy (safe_embed_content env.emb
        (safe_generate_content env.gen (expand_prompt input) 3).1 3).1 := rfl

/-- The synthesis call count in terms of the retained fragments. -/
theorem processTurnStages_synthCalls (env : TurnEnv) (conv : List Turn)
    (input : String) :
    (processTurnStages env conv input).synthCalls =
      (if (processTurnStages env conv input).fragments.isEmpty
       then ((noFragmentsLiteral, 0) : String × Nat)
       else safe_generate_content env.gen
         (synth_prompt (processTurnStages env conv input).fragments input) 3).2 :=
  rfl

/-- The synthesized context in terms of the retained fragments. -/
theorem processTurnStages_synthesized (env : TurnEnv) (conv : List Turn)
    (input : String) :
    (processTurnStages env conv input).synthesized_context =
      (if (processTurnStages env conv input).fragments.isEmpty
       then ((noFragmentsLiteral, 0) : String × Nat)
       else safe_generate_content env.gen
         (synth_prompt (processTurnStages env conv input).fragments input) 3).1 :=
  rfl

/-- The answer substitution of line 168-169 never yields the empty string. -/
theorem ite_answer_ne (s : String) :
    (if s = "" then emptyAnswerFallback else s) ≠ "" := by
  by_cases h : s = ""
  · rw [if_pos h]; decide
  · rw [if_neg h]; exact h

/-- A processed turn's answer is never the empty string. -/
theorem processTurnStages_answer_ne (env : TurnEnv) (conv : List Turn)
    (input : String) :
    (processTurnStages env conv input).answer ≠ "" :=
  ite_answer_ne _

/-- The error answer of the outer handler is never the empty string. -/
theorem pipelineError_ne (e : String) : pipelineError e ≠ "" := by
  intro h
  have h2 := congrArg String.length h
  rw [pipelineError] at h2
  simp only [String.length_append] at h2
  have hpos : 0 <
      "Se produjo un error al procesar tu consulta: ".length := by decide
  have h0 : ("" : String).length = 0 := rfl
  omega

/-- Claim C1: for every assistant turn appended to the conversation state,
every fragment in that turn's fragment list has score at least
MIN_SIMILARITY_SCORE (0.50); no fragment with a score below the threshold is
ever present in any turn's fragment list, under any outcome of the pipeline,
the total-failure path (which forces the list empty) included. -/
theorem claim_C1 (steps : List (TurnEnv × String)) (t : Turn)
    (ht : t ∈ runSession steps) (l : List Fragment)
    (hl : t.fragments = some l) (f : Fragment) (hf : f ∈ l) :
    MIN_SIMILARITY_SCORE ≤ f.score :=
  runAux_fragmentsOk steps []
    (fun x hx => absurd hx (List.not_mem_nil x)) t ht l hl f hf

/-- Environment for the C1 witness: every external call succeeds and the
index returns one match above threshold. -/
def envC1 : TurnEnv :=
  { gen := fun _ _ => GenOutcome.ok "respuesta"
    emb := fun _ _ => EmbedOutcome.ok [1]
    indexResult := Except.ok
      [{ score := some (mkRat 91 100),
         metadata := some { texto := some "fragmento", documento := some "seccion 1" } }]
    catastrophic := none }

/-- Fragment retained in the C1 witness run. -/
def fragC1 : Fragment :=
  { texto := "fragmento", documento := "seccion 1", score := mkRat 91 100 }

/-- Assistant turn produced in the C1 witness run. -/
def asstC1 : Turn :=
  { role := Role.Asistente, content := "respuesta", fragments := some [fragC1] }

/-- Witness for claim C1 at a concrete one-step session. -/
theorem claim_C1_witness : MIN_SIMILARITY_SCORE ≤ fragC1.score :=
  claim_C1 [(envC1, "pregunta")] asstC1 (by decide) [fragC1] (by decide)
    fragC1 (by decide)

/-- Claim C2: for every prompt and every behaviour of the underlying external
calls (raising on any attempt or returning a structurally malformed
response), the wrappers never propagate an exception — they are total
functions into String and Option — and on exhausting all attempts
safe_generate_content returns the fixed fallback string while
safe_embed_content returns the null sentinel. -/
theorem claim_C2 (g : String → Nat → GenOutcome)
    (e : String → Nat → EmbedOutcome) (p c : String) (n m : Nat)
    (hg : ∀ i t, g p i ≠ GenOutcome.ok t)
    (he : ∀ i v, e c i ≠ EmbedOutcome.ok v) :
    (safe_generate_content g p n).1 = genFallback ∧
      (safe_embed_content e c m).1 = none :=
  ⟨safeGenLoop_all_fail (g p) hg n 0, safeEmbedLoop_all_fail (e c) he m 0⟩

/-- Witness for claim C2 with a service that raises on every attempt and one
that always answers malformed. -/
theorem claim_C2_witness :
    (safe_generate_content (fun _ _ => GenOutcome.err "fallo") "hola" 3).1 =
        genFallback ∧
      (safe_embed_content (fun _ _ => EmbedOutcome.malformed) "hola" 3).1 =
        none :=
  claim_C2 (fun _ _ => GenOutcome.err "fallo")
    (fun _ _ => EmbedOutcome.malformed) "hola" "hola" 3 3
    (fun _ _ h => GenOutcome.noConfusion h)
    (fun _ _ h => EmbedOutcome.noConfusion h)

/-- Claim C3: after fully processing K user turns the conversation state
contains exactly 2K turns alternating Usuario then Asistente, and the
history is append-only: processing further turns extends the earlier
conversation without changing any earlier turn. -/
theorem claim_C3 (steps : List (TurnEnv × String)) :
    (runSession steps).length = 2 * steps.length ∧
      alternatingUA (runSession steps) = true ∧
      ∀ more, ∃ tail,
        runSession (steps ++ more) = runSession steps ++ tail := by
  refine ⟨?_, ?_, ?_⟩
  · have h := runAux_length steps []
    simpa [runSession] using h
  · exact runAux_alternating steps [] rfl
  · intro more
    rw [runSession, runAux_append]
    exact runAux_extends more (runAux [] steps)

/-- Claim C4: one logical invocation of safe_generate_content, respectively
safe_embed_content, with maximum retry count N calls the underlying service
at most N times, whatever the prompt and the behaviour of the service. -/
theorem claim_C4 (g : String → Nat → GenOutcome)
    (e : String → Nat → EmbedOutcome) (p c : String) (n m : Nat) :
    (safe_generate_content g p n).2 ≤ n ∧ (safe_embed_content e c m).2 ≤ m :=
  ⟨safeGenLoop_calls_le (g p) n 0, safeEmbedLoop_calls_le (e c) m 0⟩

/-- Claim C5: if the embedding call fails on every attempt (the wrapper
returns the null sentinel), the vector index is never queried, the assistant
turn carries an empty fragment list, and its answer string is non-empty;
processTurn is a total function, so no exception propagates. -/
theorem claim_C5 (env : TurnEnv) (conv : List Turn) (input : String)
    (he : ∀ s i v, env.emb s i ≠ EmbedOutcome.ok v) :
    (processTurn env conv input).indexQueried = false ∧
      (processTurn env conv input).fragments = [] ∧
      (processTurn env conv input).answer ≠ "" := by
  have hv : ∀ s, (safe_embed_content env.emb s 3).1 = none :=
    fun s => safeEmbedLoop_all_fail (env.emb s) (he s) 3 0
  have hq : (processTurnStages env conv input).indexQueried = false := by
    rw [processTurnStages_indexQueried, hv]
    rfl
  have hfr : (processTurnStages env conv input).fragments = [] := by
    rw [processTurnStages_fragments, hv]
    rfl
  cases hc : env.catastrophic with
  | none =>
    refine ⟨?_, ?_, ?_⟩ <;> simp only [processTurn, hc]
    · exact hq
    · exact hfr
    · exact processTurnStages_answer_ne env conv input
  | some e =>
    refine ⟨?_, ?_, ?_⟩ <;> simp only [processTurn, hc]
    · exact hq
    · exact pipelineError_ne e

/-- Environment for the C5 witness: the embedding service raises on every
attempt. -/
def envC5 : TurnEnv :=
  { gen := fun _ _ => GenOutcome.ok "respuesta"
    emb := fun _ _ => EmbedOutcome.err "caida"
    indexResult := Except.ok []
    catastrophic := none }

/-- Witness for claim C5 at a concrete turn. -/
theorem claim_C5_witness :
    (processTurn envC5 [] "consulta").indexQueried = false ∧
      (processTurn envC5 [] "consulta").fragments = [] ∧
      (processTurn envC5 [] "consulta").answer ≠ "" :=
  claim_C5 envC5 [] "consulta" (fun _ _ _ h => EmbedOutcome.noConfusion h)

/-- Matches of the C6 example: scores 0.91, 0.73, 0.40, 0.60. -/
def matchesC6 : List IndexMatch :=
  [ { score := some (mkRat 91 100),
      metadata := some { texto := some "f1", documento := some "d1" } },
    { score := some (mkRat 73 100),
      metadata := some { texto := some "f2", documento := some "d2" } },
    { score := some (mkRat 40 100),
      metadata := some { texto := some "f3", documento := some "d3" } },
    { score := some (mkRat 60 100),
      metadata := some { texto := some "f4", documento := some "d4" } } ]

/-- Claim C6: with ordered match scores [0.91, 0.73, 0.40, 0.60] and
threshold 0.50, the retained fragments are exactly the first, second and
fourth matches in their original relative order — retained scores
[0.91, 0.73, 0.60] — and in general the retrieval loop equals the threshold
filter over the index's returned order followed by fragment construction,
hence preserves that order. -/
theorem claim_C6 :
    (retrieveFragments matchesC6).map Fragment.score =
        [mkRat 91 100, mkRat 73 100, mkRat 60 100] ∧
      (retrieveFragments matchesC6).map Fragment.documento = ["d1", "d2", "d4"] ∧
      ∀ ms, retrieveFragments ms =
        (ms.filter (fun m => decide (MIN_SIMILARITY_SCORE ≤ matchScore m))).map
          fragmentOfMatch :=
  ⟨by decide, by decide, retrieveFragments_eq_filter_map⟩

/-- Claim C7: if zero fragments are retained after retrieval and filtering
(and the outer exception handler is not hit), the synthesis-stage model call
is not made at all — zero calls — and the synthesized context equals the
fixed literal stating that no relevant passages were found. -/
theorem claim_C7 (env : TurnEnv) (conv : List Turn) (input : String)
    (hc : env.catastrophic = none)
    (h : (processTurn env conv input).fragments = []) :
    (processTurn env conv input).synthCalls = 0 ∧
      (processTurn env conv input).synthesized_context = noFragmentsLiteral := by
  simp only [processTurn, hc] at h ⊢
  constructor
  · rw [processTurnStages_synthCalls, h]
    rfl
  · rw [processTurnStages_synthesized, h]
    rfl

/-- Environment for the C7 witness: the index returns no matches. -/
def envC7 : TurnEnv :=
  { gen := fun _ _ => GenOutcome.ok "respuesta"
    emb := fun _ _ => EmbedOutcome.ok [1]
    indexResult := Except.ok []
    catastrophic := none }

/-- Witness for claim C7 at a concrete turn with empty retrieval. -/
theorem claim_C7_witness :
    (processTurn envC7 [] "consulta").synthCalls = 0 ∧
      (processTurn envC7 [] "consulta").synthesized_context =
        noFragmentsLiteral :=
  claim_C7 envC7 [] "consulta" rfl (by decide)

/-- Claim C8: if query expansion fails on every attempt, so that the wrapper
returns the fixed fallback string, the pipeline does not abort: the
embedding stage still runs (at least one embedding call is made) and the
content passed to the embedding call is that fallback string itself. -/
theorem claim_C8 (env : TurnEnv) (conv : List Turn) (input : String)
    (hc : env.catastrophic = none)
    (hg : ∀ i t, env.gen (expand_prompt input) i ≠ GenOutcome.ok t) :
    (processTurn env conv input).embedInput = genFallback ∧
      1 ≤ (processTurn env conv input).embedCalls := by
  have hexp : (safe_generate_content env.gen (expand_prompt input) 3).1 =
      genFallback :=
    safeGenLoop_all_fail (env.gen (expand_prompt input)) hg 3 0
  constructor
  · simp only [processTurn, hc]
    rw [processTurnStages_embedInput]
    exact hexp
  · simp only [processTurn, hc]
    rw [processTurnStages_embedCalls]
    exact safeEmbedLoop_calls_pos _ 2 0

/-- Environment for the C8 witness: the generative service always answers
with a malformed response, so expansion exhausts its retries. -/
def envC8 : TurnEnv :=
  { gen := fun _ _ => GenOutcome.malformed
    emb := fun _ _ => EmbedOutcome.ok [1]
    indexResult := Except.ok []
    catastrophic := none }

/-- Witness for claim C8 at a concrete turn. -/
theorem claim_C8_witness :
    (processTurn envC8 [] "consulta").embedInput = genFallback ∧
      1 ≤ (processTurn envC8 [] "consulta").embedCalls :=
  claim_C8 envC8 [] "consulta" rfl (fun _ _ h => GenOutcome.noConfusion h)

/-- Claim C9: an index match lacking a score field is treated as score 0 and
therefore — MIN_SIMILARITY_SCORE being 0.50 > 0 — is never retained in the
fragment list; matches missing the whole metadata mapping or the texto or
documento fields yield fragments with empty-string defaults instead of an
error. -/
theorem claim_C9 :
    (∀ m, m.score = none → matchScore m = 0) ∧
      (∀ m ms, m.score = none →
        retrieveFragments (m :: ms) = retrieveFragments ms) ∧
      (∀ m, m.metadata = none →
        (fragmentOfMatch m).texto = "" ∧ (fragmentOfMatch m).documento = "") ∧
      (∀ m meta, m.metadata = some meta → meta.texto = none →
        (fragmentOfMatch m).texto = "") ∧
      (∀ m meta, m.metadata = some meta → meta.documento = none →
        (fragmentOfMatch m).documento = "") := by
  refine ⟨?_, ?_, ?_, ?_, ?_⟩
  · intro m h
    rw [matchScore, h]
    rfl
  · intro m ms h
    have h0 : matchScore m = 0 := by rw [matchScore, h]; rfl
    rw [retrieveFragments, h0,
      if_neg (show ¬ MIN_SIMILARITY_SCORE ≤ (0 : ℚ) by decide)]
  · intro m h
    constructor <;> simp [fragmentOfMatch, h]
  · intro m meta hm ht
    simp [fragmentOfMatch, hm, ht]
  · intro m meta hm hd
    simp [fragmentOfMatch, hm, hd]

/-- Scoreless, metadata-less match for the C9 witness. -/
def matchC9 : IndexMatch := { score := none, metadata := none }

/-- Witness for claim C9 at a concrete match. -/
theorem claim_C9_witness :
    retrieveFragments [matchC9] = retrieveFragments [] ∧
      (fragmentOfMatch matchC9).texto = "" ∧
      (fragmentOfMatch matchC9).documento = "" :=
  ⟨claim_C9.2.1 matchC9 [] rfl, (claim_C9.2.2.1 matchC9 rfl).1,
    (claim_C9.2.2.1 matchC9 rfl).2⟩

/-- Claim C10: if the embedding call returns an empty vector — an empty
list, not the null sentinel — retrieval is nevertheless skipped and the turn
proceeds with an empty fragment list, because the guard tests Python
truthiness of the vector (the empty list is falsy) rather than it being
non-null. -/
theorem claim_C10 (env : TurnEnv) (conv : List Turn) (input : String)
    (he : ∀ s i, env.emb s i = EmbedOutcome.ok []) :
    pyTruthy (some ([] : List ℚ)) = false ∧
      (processTurn env conv input).indexQueried = false ∧
      (processTurn env conv input).fragments = [] := by
  have hv : ∀ s, (safe_embed_content env.emb s 3).1 = some [] := by
    intro s
    show (safeEmbedLoop (env.emb s) 0 3).1 = some []
    rw [show (3 : Nat) = 2 + 1 from rfl, safeEmbedLoop, he s 0]
  have hq : (processTurnStages env conv input).indexQueried = false := by
    rw [processTurnStages_indexQueried, hv]
    rfl
  have hfr : (processTurnStages env conv input).fragments = [] := by
    rw [processTurnStages_fragments, hv]
    rfl
  refine ⟨rfl, ?_, ?_⟩
  · cases hc : env.catastrophic with
    | none => simp only [processTurn, hc]; exact hq
    | some e => simp only [processTurn, hc]; exact hq
  · cases hc : env.catastrophic with
    | none => simp only [processTurn, hc]; exact hfr
    | some e => simp only [processTurn, hc]

/-- Environment for the C10 witness: the embedding service returns an empty
vector while the index would have returned an above-threshold match. -/
def envC10 : TurnEnv :=
  { gen := fun _ _ => GenOutcome.ok "respuesta"
    emb := fun _ _ => EmbedOutcome.ok []
    indexResult := Except.ok
      [{ score := some (mkRat 95 100),
         metadata := some { texto := some "fragmento", documento := some "seccion 2" } }]
    catastrophic := none }

/-- Witness for claim C10 at a concrete turn. -/
theorem claim_C10_witness :
    pyTruthy (some ([] : List ℚ)) = false ∧
      (processTurn envC10 [] "consulta").indexQueried = false ∧
      (processTurn envC10 [] "consulta").fragments = [] :=
  claim_C10 envC10 [] "consulta" (fun _ _ => rfl)

end ChatbotAemet
